import Mathlib

noncomputable section

/-!
Shallow embedding of the "Cain" optimiser (src/opt/cain.rs).

`f32` values are modelled as real numbers; `usize`/`u64` counters as `ℕ`.
Vectors (`Vec<f32>`) are `List ℝ`.  `powf` is real exponentiation (`rpow`),
`powi` is monoid power, `max`/`min` are the real order operations.  The
graph and the training-set supplier are external collaborators: they are
modelled by the `World` structure, a deterministic transition system whose
`backprop` field returns the raw (un-averaged) loss and gradient for the
supplier state, batch size and parameters, and whose `advance` field
advances the supplier state after drawing a batch.  Callback closures
(`Box<FnMut(CallbackData)->CallbackSignal>`) are modelled as pure state
transformers over an external state type, kept outside the `Cain` record
and threaded explicitly.
-/

/-- Config struct (cain.rs lines 100-110): hyperparameters fixed at
construction. -/
structure CainConfig where
  num_subbatches : ℝ
  momentum : ℝ
  aggression : ℝ
  target_err : ℝ
  subbatch_increase_damping : ℝ
  subbatch_decrease_damping : ℝ
  rate_adapt_coefficient : ℝ
  max_eval_batch_size : ℕ
  min_subbatch_size : ℕ

/-- Builder struct (cain.rs lines 10-15); the graph reference is external,
so only the numeric fields are kept and `finish` receives the graph's
parameter count as an argument. -/
structure CainBuilder where
  initial_learning_rate : ℝ
  initial_subbatch_size : ℝ
  config : CainConfig

/-- Optimiser state (cain.rs lines 116-130); the graph reference and the
callback vector are external and threaded separately. -/
structure Cain where
  config : CainConfig
  eval_count : ℕ
  step_count : ℕ
  curvature_est : List ℝ
  learning_rate : ℝ
  batch_size : ℝ
  momentum_derivs : List ℝ
  prev_derivs : List ℝ

namespace CainBuilder

/-- cain.rs lines 19-22: `(val as f32).max(2.0)`. -/
def num_subbatches (b : CainBuilder) (val : ℕ) : CainBuilder :=
  { b with config := { b.config with num_subbatches := max (val : ℝ) 2 } }

/-- cain.rs lines 24-27. -/
def momentum (b : CainBuilder) (val : ℝ) : CainBuilder :=
  { b with config := { b.config with momentum := val } }

/-- cain.rs lines 29-32. -/
def aggression (b : CainBuilder) (val : ℝ) : CainBuilder :=
  { b with config := { b.config with aggression := val } }

/-- cain.rs lines 35-38. -/
def target_err (b : CainBuilder) (val : ℝ) : CainBuilder :=
  { b with config := { b.config with target_err := val } }

/-- cain.rs lines 40-43. -/
def subbatch_increase_damping (b : CainBuilder) (val : ℝ) : CainBuilder :=
  { b with config := { b.config with subbatch_increase_damping := val } }

/-- cain.rs lines 45-48.  NOTE: the source body assigns to
`config.subbatch_increase_damping`, not to `config.subbatch_decrease_damping`;
the embedding reproduces the source faithfully. -/
def subbatch_decrease_damping (b : CainBuilder) (val : ℝ) : CainBuilder :=
  { b with config := { b.config with subbatch_increase_damping := val } }

/-- cain.rs lines 50-53. -/
def rate_adapt_coefficient (b : CainBuilder) (val : ℝ) : CainBuilder :=
  { b with config := { b.config with rate_adapt_coefficient := val } }

/-- cain.rs lines 55-58. -/
def max_eval_batch_size (b : CainBuilder) (val : ℕ) : CainBuilder :=
  { b with config := { b.config with max_eval_batch_size := val } }

/-- cain.rs lines 60-66: sets the config field, then raises the initial
sub-batch size to at least `val` when it falls below it. -/
def min_subbatch_size (b : CainBuilder) (val : ℕ) : CainBuilder :=
  let b := { b with config := { b.config with min_subbatch_size := val } }
  if (val : ℝ) > b.initial_subbatch_size then
    { b with initial_subbatch_size := (val : ℝ) }
  else b

/-- cain.rs lines 68-71 (`initial_learning_rate`; the method shares the
field's name, which Lean does not allow, hence the `set_` spelling). -/
def set_initial_learning_rate (b : CainBuilder) (val : ℝ) : CainBuilder :=
  { b with initial_learning_rate := val }

/-- cain.rs lines 73-76 (`initial_subbatch_size`; same naming note). -/
def set_initial_subbatch_size (b : CainBuilder) (val : ℝ) : CainBuilder :=
  { b with initial_subbatch_size := val }

/-- cain.rs lines 78-95: `finish`, with `num_params` standing for
`self.graph.num_params()`. -/
def finish (b : CainBuilder) (num_params : ℕ) : Cain :=
  { config := b.config
    eval_count := 0
    step_count := 0
    curvature_est := List.replicate num_params 0
    learning_rate := b.initial_learning_rate
    batch_size := b.initial_subbatch_size
    momentum_derivs := List.replicate num_params 0
    prev_derivs := List.replicate num_params 0 }

end CainBuilder

/-- cain.rs lines 133-150: `Cain::new`, the default builder
(`usize::MAX` is 2^64 - 1). -/
def Cain.new : CainBuilder :=
  { initial_learning_rate := 1e-4
    initial_subbatch_size := 2
    config :=
      { num_subbatches := 8
        momentum := 0.9
        aggression := 0.75
        target_err := 0.75
        subbatch_increase_damping := 0.15
        subbatch_decrease_damping := 0.15
        rate_adapt_coefficient := 1.05
        max_eval_batch_size := 2 ^ 64 - 1
        min_subbatch_size := 1 } }

/-- `VecMath::dot`: sum of elementwise products. -/
def dot (a b : List ℝ) : ℝ := (List.zipWith (fun x y => x * y) a b).sum

namespace Cain

/-- The body of the fold at cain.rs lines 200-217: for one sub-batch
gradient `derivs`, accumulate `Σ (d-h)²` and `Σ h²` over the coordinates
(`h` the hold-one-out mean) and return `diff_dot / (mean_dot * n)`. -/
def holdOneOutTerm (n : ℝ) (mean derivs : List ℝ) : ℝ :=
  let pairs := mean.zip derivs
  let diff_dot :=
    (pairs.map (fun p =>
      let h := (p.1 - p.2 / n) * n / (n - 1)
      (p.2 - h) * (p.2 - h))).sum
  let mean_dot :=
    (pairs.map (fun p =>
      let h := (p.1 - p.2 / n) * n / (n - 1)
      h * h)).sum
  diff_dot / (mean_dot * n)

/-- cain.rs lines 200-217: `rel_var`, the fold of `holdOneOutTerm` over the
sub-batch results. -/
def rel_var (cfg : CainConfig) (mean : List ℝ) (results : List (ℝ × List ℝ)) : ℝ :=
  results.foldl (fun sum r => sum + holdOneOutTerm cfg.num_subbatches mean r.2) 0

/-- cain.rs line 220: the relative error before clamping. -/
def rel_err_raw (cfg : CainConfig) (mean : List ℝ) (results : List (ℝ × List ℝ)) : ℝ :=
  Real.sqrt (rel_var cfg mean results / cfg.num_subbatches) / cfg.target_err

/-- cain.rs lines 195-260: `update_batch_size`.  Mutates `batch_size` and
returns the (clamped, line 252) relative error measure. -/
def update_batch_size (st : Cain) (mean : List ℝ) (results : List (ℝ × List ℝ)) :
    Cain × ℝ :=
  let rel_err := rel_err_raw st.config mean results
  let rel_err := min (max rel_err 0.125) 1000
  let factor :=
    if 1 < rel_err then rel_err ^ st.config.subbatch_increase_damping
    else rel_err ^ st.config.subbatch_decrease_damping
  let bs := st.batch_size * factor
  let bs := max bs (st.config.min_subbatch_size : ℝ)
  ({ st with batch_size := bs }, rel_err)

/-- cain.rs lines 262-289: `update_curvature`.  Scales the whole curvature
vector by `curv_decay`, then adds `(mean_i - momentum_i)²·(1-curv_decay)`
to the first `mean.length` coordinates. -/
def update_curvature (st : Cain) (mean : List ℝ) : Cain :=
  let curv_decay := max (st.config.momentum ^ ((1 : ℝ) / 4)) 0.9
  let scaled := st.curvature_est.map (fun c => c * curv_decay)
  let curv := (List.range scaled.length).map (fun i =>
    if i < mean.length then
      scaled.getD i 0 +
        (mean.getD i 0 - st.momentum_derivs.getD i 0) *
          (mean.getD i 0 - st.momentum_derivs.getD i 0) * (1 - curv_decay)
    else scaled.getD i 0)
  { st with curvature_est := curv }

end Cain

/-- Deterministic model of the external collaborators (supplier + graph),
as seen through `part_step` (cain.rs lines 181-192): `backprop s b params`
is the raw total loss and total gradient that `graph.backprop` returns for
the `b` samples the supplier yields in state `s`; `advance s b` is the
supplier state after those samples are taken. -/
structure World (σ : Type) where
  backprop : σ → ℕ → List ℝ → ℝ × List ℝ
  advance : σ → ℕ → σ

namespace Cain

variable {σ : Type}

/-- cain.rs lines 181-192: `part_step`.  Draws one sub-batch, divides loss
and gradient by the batch size, and adds the batch size to `eval_count`. -/
def part_step (w : World σ) (s : σ) (st : Cain) (params : List ℝ) (batch_size : ℕ) :
    σ × Cain × ℝ × List ℝ :=
  let r := w.backprop s batch_size params
  let s := w.advance s batch_size
  let err := r.1 / (batch_size : ℝ)
  let param_derivs := r.2.map (fun d => d * (1 / (batch_size : ℝ)))
  (s, { st with eval_count := st.eval_count + batch_size }, err, param_derivs)

/-- cain.rs line 328: the `(0..num_subbatches).map(|_| part_step ...)`
collection, threading the supplier state and `eval_count` left to right. -/
def collectResults (w : World σ) : ℕ → σ → Cain → List ℝ → ℕ →
    σ × Cain × List (ℝ × List ℝ)
  | 0, s, st, _, _ => (s, st, [])
  | n + 1, s, st, params, b =>
    let r := part_step w s st params b
    let rest := collectResults w n r.1 r.2.1 params b
    (rest.1, rest.2.1, (r.2.2.1, r.2.2.2) :: rest.2.2)

/-- The sub-batch results of one `step` call (cain.rs lines 327-328):
`num_subbatches as usize` sub-batches of size `batch_size.floor()` each. -/
def subbatchResults (w : World σ) (s : σ) (st : Cain) (params : List ℝ) :
    σ × Cain × List (ℝ × List ℝ) :=
  collectResults w ⌊st.config.num_subbatches⌋₊ s st params ⌊st.batch_size⌋₊

/-- cain.rs line 331: the across-subbatch mean gradient of one `step`
call. -/
def stepMean (w : World σ) (s : σ) (st : Cain) (params : List ℝ) : List ℝ :=
  let results := (subbatchResults w s st params).2.2
  (results.foldl (fun acc r => List.zipWith (fun x y => x + y) acc r.2)
      (List.replicate params.length 0)).map
    (fun x => x * (1 / st.config.num_subbatches))

/-- cain.rs lines 323-394: `step`.  Returns the advanced supplier state,
the new optimiser state, and the `(err, new_params)` pair the source
returns (the progress `println!` is a side effect outside the model). -/
def step (w : World σ) (s : σ) (st : Cain) (params : List ℝ) :
    σ × Cain × ℝ × List ℝ :=
  let collected := subbatchResults w s st params
  let s1 := collected.1
  let st1 := collected.2.1
  let results := collected.2.2
  let err := (results.foldl (fun acc r => acc + r.1) 0) / st.config.num_subbatches
  let mean := stepMean w s st params
  let upd := update_batch_size st1 mean results
  let st2 := upd.1
  let st3 := update_curvature st2 mean
  let sim : ℝ :=
    if st3.step_count = 0 then 0
    else
      min (max (st3.config.aggression +
        dot mean st3.momentum_derivs / dot st3.momentum_derivs st3.momentum_derivs)
        (-8)) 4
  let new_rate := st3.learning_rate * st3.config.rate_adapt_coefficient ^ sim
  let momentum1 := st3.momentum_derivs.map (fun m => m * st3.config.momentum)
  let momentum2 :=
    List.zipWith (fun mo me => mo + me * (1 - st3.config.momentum)) momentum1 mean
  let curv_decay := max (st3.config.momentum ^ ((1 : ℝ) / 4)) 0.9
  let curvature_step_correction : ℝ :=
    if st3.step_count < 1000000 then 1 / (1 - curv_decay ^ (st3.step_count + 1))
    else 1
  let momentum_step_correction : ℝ := 1
  let cond_derivs :=
    List.zipWith
      (fun m c => m * momentum_step_correction /
        (Real.sqrt (c * curvature_step_correction) + 1e-8))
      momentum2 st3.curvature_est
  let change := cond_derivs.map (fun x => x * (-new_rate))
  let new_params := List.zipWith (fun x y => x + y) change params
  let st4 :=
    { st3 with
      momentum_derivs := momentum2
      learning_rate := new_rate
      step_count := st3.step_count + 1
      prev_derivs := mean }
  (s1, st4, err, new_params)

/-- `CallbackSignal` (the `opt` module): what a step callback returns. -/
inductive CallbackSignal where
  | Stop : CallbackSignal
  | Continue : CallbackSignal
deriving DecidableEq

/-- `CallbackData` (the `opt` module): the snapshot passed to each
callback; the graph reference is external and omitted. -/
structure CallbackData where
  err : ℝ
  step_count : ℕ
  eval_count : ℕ
  params : List ℝ

/-- One round of the callback loop at cain.rs lines 309-315: invoke the
callbacks in registration order over the shared external state `τ`;
`break 'outer` on the first `Stop` leaves the remaining callbacks
uninvoked.  Returns the final external state and whether a stop was
signalled. -/
def runCallbacks {τ : Type} :
    List (CallbackData → τ → CallbackSignal × τ) → CallbackData → τ → τ × Bool
  | [], _, t => (t, false)
  | c :: rest, data, t =>
    let r := c data t
    match r.1 with
    | CallbackSignal.Stop => (r.2, true)
    | CallbackSignal.Continue => runCallbacks rest data r.2

/-- A round of callback invocations as §4.6 of the spec words it
("remaining callbacks for that round are still invoked, in order, before
the loop exits"): every callback runs, and the round stops the loop when
any of them signalled `Stop`.  Written from the SPEC, for comparison with
`runCallbacks`, which is written from the source. -/
def runCallbacksSpec {τ : Type} :
    List (CallbackData → τ → CallbackSignal × τ) → CallbackData → τ → τ × Bool
  | [], _, t => (t, false)
  | c :: rest, data, t =>
    let r := c data t
    let rest' := runCallbacksSpec rest data r.2
    (rest'.1, r.1 = CallbackSignal.Stop || rest'.2)

/-- The `CallbackData` snapshot built at cain.rs line 310 after one `step`
call: loss, the post-step counters and the post-step parameters. -/
def stepData (w : World σ) (s : σ) (st : Cain) (params : List ℝ) : CallbackData :=
  let r := step w s st params
  { err := r.2.2.1, step_count := r.2.1.step_count,
    eval_count := r.2.1.eval_count, params := r.2.2.2 }

/-- cain.rs lines 302-319: `optimise_from`, with explicit fuel bounding the
number of loop iterations (the source loop has no intrinsic bound; with
fuel 0 the model returns the current parameters). -/
def optimise_from {τ : Type} (w : World σ)
    (cbs : List (CallbackData → τ → CallbackSignal × τ)) :
    ℕ → σ → Cain → τ → List ℝ → List ℝ
  | 0, _, _, _, params => params
  | fuel + 1, s, st, t, params =>
    let r := step w s st params
    let round := runCallbacks cbs (stepData w s st params) t
    if round.2 then r.2.2.2
    else optimise_from w cbs fuel r.1 r.2.1 round.1 r.2.2.2

/-- N-step trajectory: the final supplier state, optimiser state and
parameters, together with the list of `(err, params)` pairs produced by
the successive `step` calls, in order. -/
def runTrace (w : World σ) : ℕ → σ → Cain → List ℝ →
    σ × Cain × List ℝ × List (ℝ × List ℝ)
  | 0, s, st, params => (s, st, params, [])
  | n + 1, s, st, params =>
    let r := step w s st params
    let rest := runTrace w n r.1 r.2.1 r.2.2.2
    (rest.1, rest.2.1, rest.2.2.1, (r.2.2.1, r.2.2.2) :: rest.2.2.2)

end Cain

/-- Iterated `update_curvature` with a fixed mean vector: the sequence of
optimiser states obtained by calling `update_curvature` k times. -/
def curvSeq (st : Cain) (mean : List ℝ) : ℕ → Cain
  | 0 => st
  | k + 1 => (curvSeq st mean k).update_curvature mean

/-- A concrete deterministic collaborator model used to instantiate the
general theorems: a supplier with no state and a graph whose backprop
returns zero loss and an empty gradient. -/
def trivialWorld : World Unit :=
  { backprop := fun _ _ _ => (0, []), advance := fun _ _ => () }

/-- A callback that signals `Stop` and records its invocation by
incrementing the shared counter. -/
def cbStop : Cain.CallbackData → ℕ → Cain.CallbackSignal × ℕ :=
  fun _ t => (Cain.CallbackSignal.Stop, t + 1)

/-- A callback that signals `Continue` and records its invocation by
incrementing the shared counter. -/
def cbCont : Cain.CallbackData → ℕ → Cain.CallbackSignal × ℕ :=
  fun _ t => (Cain.CallbackSignal.Continue, t + 1)

/-- An arbitrary concrete callback snapshot. -/
def dataC1 : Cain.CallbackData :=
  { err := 0, step_count := 0, eval_count := 0, params := [] }

section Lemmas

variable {σ : Type}

/-- `collectResults` touches the optimiser state only through `eval_count`,
adding the sub-batch size once per sub-batch. -/
theorem collectResults_snd (w : World σ) (n : ℕ) (s : σ) (st : Cain)
    (params : List ℝ) (b : ℕ) :
    (Cain.collectResults w n s st params b).2.1 =
      { st with eval_count := st.eval_count + n * b } := by
  induction n generalizing s st with
  | zero => simp [Cain.collectResults]
  | succ n ih =>
    simp only [Cain.collectResults, Cain.part_step, ih, Cain.mk.injEq,
      and_true, true_and]
    ring

/-- The supplier-state and results components of `collectResults` do not
depend on the optimiser state at all (`part_step` reads none of its
fields). -/
theorem collectResults_indep (w : World σ) (n : ℕ) (s : σ) (st st' : Cain)
    (params : List ℝ) (b : ℕ) :
    (Cain.collectResults w n s st params b).1 =
      (Cain.collectResults w n s st' params b).1
    ∧ (Cain.collectResults w n s st params b).2.2 =
      (Cain.collectResults w n s st' params b).2.2 := by
  induction n generalizing s st st' with
  | zero => exact ⟨rfl, rfl⟩
  | succ n ih =>
    simp only [Cain.collectResults, Cain.part_step]
    exact ⟨(ih _ _ _).1, by rw [(ih _ _ _).2]⟩

/-- `update_curvature` leaves the momentum vector unchanged. -/
theorem update_curvature_momentum (st : Cain) (mean : List ℝ) :
    (st.update_curvature mean).momentum_derivs = st.momentum_derivs := rfl

/-- `update_curvature` leaves the config unchanged. -/
theorem update_curvature_config (st : Cain) (mean : List ℝ) :
    (st.update_curvature mean).config = st.config := rfl

/-- `update_curvature` preserves the length of the curvature vector. -/
theorem update_curvature_length (st : Cain) (mean : List ℝ) :
    (st.update_curvature mean).curvature_est.length = st.curvature_est.length := by
  simp [Cain.update_curvature]

/-- The per-coordinate formula of `update_curvature` on the coordinates
covered by `mean`: scale by the decay, add the squared deviation times the
complementary weight. -/
theorem update_curvature_getD (st : Cain) (mean : List ℝ) (i : ℕ)
    (hi : i < mean.length) (hic : i < st.curvature_est.length) :
    (st.update_curvature mean).curvature_est.getD i 0 =
      st.curvature_est.getD i 0 * max (st.config.momentum ^ ((1 : ℝ) / 4)) 0.9
      + (mean.getD i 0 - st.momentum_derivs.getD i 0) *
          (mean.getD i 0 - st.momentum_derivs.getD i 0) *
          (1 - max (st.config.momentum ^ ((1 : ℝ) / 4)) 0.9) := by
  have hlen : i < (st.curvature_est.map
      (fun c => c * max (st.config.momentum ^ ((1 : ℝ) / 4)) 0.9)).length := by
    simpa using hic
  simp only [Cain.update_curvature]
  rw [List.getD_eq_getElem?_getD, List.getElem?_map,
    List.getElem?_range (by simpa using hic)]
  simp only [Option.map_some', Option.getD_some]
  rw [if_pos hi]
  simp [List.getD_eq_getElem?_getD, List.getElem?_eq_getElem hic]

/-- `curvSeq` preserves the config. -/
theorem curvSeq_config (st : Cain) (mean : List ℝ) (k : ℕ) :
    (curvSeq st mean k).config = st.config := by
  induction k with
  | zero => rfl
  | succ k ih => rw [curvSeq, update_curvature_config, ih]

/-- `curvSeq` preserves the momentum vector. -/
theorem curvSeq_momentum (st : Cain) (mean : List ℝ) (k : ℕ) :
    (curvSeq st mean k).momentum_derivs = st.momentum_derivs := by
  induction k with
  | zero => rfl
  | succ k ih => rw [curvSeq, update_curvature_momentum, ih]

/-- `curvSeq` preserves the curvature vector's length. -/
theorem curvSeq_length (st : Cain) (mean : List ℝ) (k : ℕ) :
    (curvSeq st mean k).curvature_est.length = st.curvature_est.length := by
  induction k with
  | zero => rfl
  | succ k ih => rw [curvSeq, update_curvature_length, ih]

/-- Invariant: when the config momentum lies in `[0,1]` and the curvature
estimate at coordinate `i` starts at or below the squared deviation, it
stays at or below it under iterated `update_curvature` calls. -/
theorem curvSeq_le_sq (st : Cain) (mean : List ℝ) (i : ℕ)
    (hm0 : 0 ≤ st.config.momentum) (hm1 : st.config.momentum ≤ 1)
    (hi : i < mean.length) (hic : i < st.curvature_est.length)
    (hstart : st.curvature_est.getD i 0 ≤
      (mean.getD i 0 - st.momentum_derivs.getD i 0) ^ 2) :
    ∀ k, (curvSeq st mean k).curvature_est.getD i 0 ≤
      (mean.getD i 0 - st.momentum_derivs.getD i 0) ^ 2 := by
  have hd1 : max (st.config.momentum ^ ((1 : ℝ) / 4)) 0.9 ≤ 1 :=
    max_le (Real.rpow_le_one hm0 hm1 (by norm_num)) (by norm_num)
  have hd0 : (0 : ℝ) ≤ max (st.config.momentum ^ ((1 : ℝ) / 4)) 0.9 :=
    le_trans (by norm_num) (le_max_right _ _)
  intro k
  induction k with
  | zero => exact hstart
  | succ k ih =>
    rw [curvSeq, update_curvature_getD _ _ _ hi (by rw [curvSeq_length]; exact hic),
      curvSeq_config, curvSeq_momentum]
    nlinarith [ih, hd0, hd1]

end Lemmas

/-- C2: the builder method `subbatch_decrease_damping` (cain.rs lines
45-48) writes the value into `config.subbatch_increase_damping`, not into
`config.subbatch_decrease_damping`: starting from the default builder
(both dampings 0.15), calling it with 0.5 leaves
`subbatch_decrease_damping` at 0.15 and overwrites
`subbatch_increase_damping` with 0.5, contradicting the claim that each
builder method sets exactly the field it is named after. -/
theorem c2_decrease_damping_sets_increase_field :
    (Cain.new.subbatch_decrease_damping 0.5).config.subbatch_increase_damping = 0.5
    ∧ (Cain.new.subbatch_decrease_damping 0.5).config.subbatch_decrease_damping = 0.15
    ∧ Cain.new.config.subbatch_increase_damping = 0.15
    ∧ Cain.new.config.subbatch_decrease_damping = 0.15 :=
  ⟨rfl, rfl, rfl, rfl⟩

/-- C9: `update_batch_size` mutates only the `batch_size` field; config,
counters, curvature, learning rate, momentum and previous gradient are
unchanged. -/
theorem c9_update_batch_size_frame (st : Cain) (mean : List ℝ)
    (results : List (ℝ × List ℝ)) :
    ((st.update_batch_size mean results).1.config = st.config)
    ∧ ((st.update_batch_size mean results).1.eval_count = st.eval_count)
    ∧ ((st.update_batch_size mean results).1.step_count = st.step_count)
    ∧ ((st.update_batch_size mean results).1.curvature_est = st.curvature_est)
    ∧ ((st.update_batch_size mean results).1.learning_rate = st.learning_rate)
    ∧ ((st.update_batch_size mean results).1.momentum_derivs = st.momentum_derivs)
    ∧ ((st.update_batch_size mean results).1.prev_derivs = st.prev_derivs) :=
  ⟨rfl, rfl, rfl, rfl, rfl, rfl, rfl⟩

/-- C4: the clamped relative error `min (max rel_err 0.125) 1000`
(cain.rs line 252) always lies in `[0.125, 1000]`, whatever the gradient
samples were, and the new batch size is the old one multiplied by the
clamped value raised to the increase damping when it exceeds 1 and to the
decrease damping otherwise, then clamped from below by
`min_subbatch_size` (cain.rs lines 252-258). -/
theorem c4_rel_err_clamped (st : Cain) (mean : List ℝ)
    (results : List (ℝ × List ℝ)) :
    (0.125 ≤ min (max (Cain.rel_err_raw st.config mean results) 0.125) 1000
      ∧ min (max (Cain.rel_err_raw st.config mean results) 0.125) 1000 ≤ 1000)
    ∧ (st.update_batch_size mean results).2 =
        min (max (Cain.rel_err_raw st.config mean results) 0.125) 1000
    ∧ (st.update_batch_size mean results).1.batch_size =
        max (st.batch_size *
          (if 1 < min (max (Cain.rel_err_raw st.config mean results) 0.125) 1000 then
            (min (max (Cain.rel_err_raw st.config mean results) 0.125) 1000) ^
              st.config.subbatch_increase_damping
          else
            (min (max (Cain.rel_err_raw st.config mean results) 0.125) 1000) ^
              st.config.subbatch_decrease_damping))
          (st.config.min_subbatch_size : ℝ) :=
  ⟨⟨le_min (le_max_right _ _) (by norm_num), min_le_right _ _⟩, rfl, rfl⟩

/-- C6: in every `step` call the learning-rate scalar `sim` is 0 on the
first step (`step_count = 0`) and otherwise
`clamp (aggression + dot mean momentum / dot momentum momentum) (-8) 4`
(cain.rs lines 359-363), and the persisted learning rate is the previous
one times `rate_adapt_coefficient ^ sim` (lines 365 and 390). -/
theorem c6_sim_and_learning_rate {σ : Type} (w : World σ) (s : σ) (st : Cain)
    (params : List ℝ) :
    (Cain.step w s st params).2.1.learning_rate =
      st.learning_rate * st.config.rate_adapt_coefficient ^
        (if st.step_count = 0 then (0 : ℝ)
         else
           min (max (st.config.aggression +
             dot (Cain.stepMean w s st params) st.momentum_derivs /
               dot st.momentum_derivs st.momentum_derivs) (-8)) 4) := by
  simp only [Cain.step, Cain.subbatchResults, Cain.update_batch_size,
    Cain.update_curvature, collectResults_snd]

/-- C7: the optimiser is deterministic — two states whose config, counters,
curvature estimate, learning rate, batch size, momentum and previous
gradient all agree produce identical N-step trajectories (supplier states,
optimiser states, parameter vectors and losses) against the same
deterministic collaborator model. -/
theorem c7_determinism {σ : Type} (w : World σ) (s : σ) (N : ℕ)
    (params : List ℝ) (st1 st2 : Cain)
    (h1 : st1.config = st2.config) (h2 : st1.eval_count = st2.eval_count)
    (h3 : st1.step_count = st2.step_count)
    (h4 : st1.curvature_est = st2.curvature_est)
    (h5 : st1.learning_rate = st2.learning_rate)
    (h6 : st1.batch_size = st2.batch_size)
    (h7 : st1.momentum_derivs = st2.momentum_derivs)
    (h8 : st1.prev_derivs = st2.prev_derivs) :
    Cain.runTrace w N s st1 params = Cain.runTrace w N s st2 params := by
  obtain rfl : st1 = st2 := by cases st1; cases st2; simp_all
  rfl

/-- C7 witness: the general determinism theorem applied to the trivial
collaborator model, two steps from the default optimiser state. -/
theorem c7_determinism_witness :
    Cain.runTrace trivialWorld 2 () (Cain.new.finish 1) [0] =
      Cain.runTrace trivialWorld 2 () (Cain.new.finish 1) [0] :=
  c7_determinism trivialWorld () 2 [0] (Cain.new.finish 1) (Cain.new.finish 1)
    rfl rfl rfl rfl rfl rfl rfl rfl

/-- C10: the `prev_derivs` field is dead state — two optimiser states
differing only in `prev_derivs` give identical `step` results (supplier
state, full successor optimiser state, loss, new parameters), and the
successor's `prev_derivs` is overwritten with the step's mean gradient
(cain.rs line 392); no active computation in `step` reads it. -/
theorem c10_prev_derivs_noninterference {σ : Type} (w : World σ) (s : σ)
    (st : Cain) (params a b : List ℝ) :
    Cain.step w s { st with prev_derivs := a } params =
      Cain.step w s { st with prev_derivs := b } params
    ∧ (Cain.step w s { st with prev_derivs := a } params).2.1.prev_derivs =
        Cain.stepMean w s { st with prev_derivs := a } params := by
  refine ⟨?_, rfl⟩
  have key := collectResults_indep w ⌊st.config.num_subbatches⌋₊ s
    { st with prev_derivs := a } { st with prev_derivs := b } params
    ⌊st.batch_size⌋₊
  simp only [Cain.step, Cain.stepMean, Cain.subbatchResults,
    Cain.update_batch_size, Cain.update_curvature, collectResults_snd]
  rw [key.1, key.2]

/-- C8: with the config momentum in the `[0,1]` range the spec's data
model gives it, iterating `update_curvature` with a fixed mean vector
yields, at each coordinate `i` covered by the mean, a non-decreasing
sequence of curvature estimates whenever the estimate starts at or below
`(mean_i - momentum_i)²` (as it does from the all-zero initial state);
each call applies `curv' = curv·curv_decay + (mean_i-momentum_i)²·(1-curv_decay)`
with `curv_decay = max (momentum ^ (1/4)) 0.9` (cain.rs lines 262-289). -/
theorem c8_update_curvature_monotone (st : Cain) (mean : List ℝ) (i k : ℕ)
    (hm0 : 0 ≤ st.config.momentum) (hm1 : st.config.momentum ≤ 1)
    (hi : i < mean.length) (hic : i < st.curvature_est.length)
    (hstart : st.curvature_est.getD i 0 ≤
      (mean.getD i 0 - st.momentum_derivs.getD i 0) ^ 2) :
    (curvSeq st mean k).curvature_est.getD i 0 ≤
      (curvSeq st mean (k + 1)).curvature_est.getD i 0 := by
  have hd1 : max (st.config.momentum ^ ((1 : ℝ) / 4)) 0.9 ≤ 1 :=
    max_le (Real.rpow_le_one hm0 hm1 (by norm_num)) (by norm_num)
  have hd0 : (0 : ℝ) ≤ max (st.config.momentum ^ ((1 : ℝ) / 4)) 0.9 :=
    le_trans (by norm_num) (le_max_right _ _)
  have hinv := curvSeq_le_sq st mean i hm0 hm1 hi hic hstart k
  rw [curvSeq, update_curvature_getD _ _ _ hi (by rw [curvSeq_length]; exact hic),
    curvSeq_config, curvSeq_momentum]
  nlinarith [hinv, hd0, hd1]

/-- C8 witness: one `update_curvature` call from the freshly built state
with zero momentum coefficient, mean `[1]`, at coordinate 0, does not
decrease the curvature estimate. -/
theorem c8_update_curvature_monotone_witness :
    (curvSeq ((Cain.new.momentum 0).finish 1) [1] 0).curvature_est.getD 0 0 ≤
      (curvSeq ((Cain.new.momentum 0).finish 1) [1] 1).curvature_est.getD 0 0 :=
  c8_update_curvature_monotone ((Cain.new.momentum 0).finish 1) [1] 0 0
    (by norm_num [Cain.new, CainBuilder.momentum, CainBuilder.finish])
    (by norm_num [Cain.new, CainBuilder.momentum, CainBuilder.finish])
    (by simp)
    (by simp [Cain.new, CainBuilder.momentum, CainBuilder.finish])
    (by norm_num [Cain.new, CainBuilder.momentum, CainBuilder.finish])

/-- C5 counterexample: the builder sequence
`Cain::new().initial_subbatch_size(0.5).finish()` produces an optimiser
whose `batch_size` (0.5) is strictly below its `min_subbatch_size`
(default 1) immediately after `finish()`, refuting the claim that the
invariant holds after every sequence of builder calls. -/
theorem c5_finish_below_min_counterexample :
    ((Cain.new.set_initial_subbatch_size 0.5).finish 1).batch_size <
      ((((Cain.new.set_initial_subbatch_size 0.5).finish 1)).config.min_subbatch_size : ℝ) := by
  norm_num [Cain.new, CainBuilder.set_initial_subbatch_size, CainBuilder.finish]

/-- C5 (amended): `batch_size ≥ min_subbatch_size` holds after `finish()`
provided the builder's initial sub-batch size is not below the configured
minimum (which `min_subbatch_size` itself enforces, but a later
`initial_subbatch_size` call can undo), and it holds unconditionally after
every `update_batch_size` call and after every `step`, for any sequence of
gradients. -/
theorem c5_batch_size_min_invariant :
    (∀ (b : CainBuilder) (n : ℕ),
      (b.config.min_subbatch_size : ℝ) ≤ b.initial_subbatch_size →
      (b.config.min_subbatch_size : ℝ) ≤ (b.finish n).batch_size)
    ∧ (∀ (st : Cain) (mean : List ℝ) (results : List (ℝ × List ℝ)),
      ((st.update_batch_size mean results).1.config.min_subbatch_size : ℝ) ≤
        (st.update_batch_size mean results).1.batch_size)
    ∧ (∀ (σ : Type) (w : World σ) (s : σ) (st : Cain) (params : List ℝ),
      (((Cain.step w s st params).2.1).config.min_subbatch_size : ℝ) ≤
        ((Cain.step w s st params).2.1).batch_size) := by
  refine ⟨fun b n h => h, fun st mean results => le_max_right _ _, ?_⟩
  intro σ w s st params
  simp only [Cain.step, Cain.subbatchResults, Cain.update_batch_size,
    Cain.update_curvature, collectResults_snd]
  exact le_max_right _ _

/-- C5 witness: the invariant theorem applied to the default builder with
three parameters, and to one step of the trivial collaborator model. -/
theorem c5_batch_size_min_invariant_witness :
    ((Cain.new.config.min_subbatch_size : ℝ) ≤ (Cain.new.finish 3).batch_size)
    ∧ ((((Cain.step trivialWorld () (Cain.new.finish 1) [0]).2.1).config.min_subbatch_size : ℝ) ≤
        ((Cain.step trivialWorld () (Cain.new.finish 1) [0]).2.1).batch_size) :=
  ⟨c5_batch_size_min_invariant.1 Cain.new 3 (by norm_num [Cain.new]),
   c5_batch_size_min_invariant.2.2 Unit trivialWorld () (Cain.new.finish 1) [0]⟩

/-- C1 counterexample: with two registered callbacks, each incrementing a
shared counter, where the first returns `Stop`: the source loop
(cain.rs line 312, `break 'outer`) leaves the counter at 1 — the second
callback is never invoked — whereas the spec's wording ("remaining
callbacks for that round are still invoked") would leave it at 2. -/
theorem c1_stop_skips_rest_counterexample :
    Cain.runCallbacks [cbStop, cbCont] dataC1 0 = (1, true)
    ∧ Cain.runCallbacksSpec [cbStop, cbCont] dataC1 0 = (2, true) :=
  ⟨rfl, rfl⟩

/-- C1 (amended): when a registered callback returns `Stop`, the remaining
callbacks registered after it are NOT invoked for that round — the
callback loop is abandoned at once — and `optimise_from` then returns the
parameter vector produced by the step that preceded the round. -/
theorem c1_stop_semantics {σ τ : Type} (w : World σ) :
    (∀ (cb : Cain.CallbackData → τ → Cain.CallbackSignal × τ)
       (rest : List (Cain.CallbackData → τ → Cain.CallbackSignal × τ))
       (d : Cain.CallbackData) (t t' : τ),
      cb d t = (Cain.CallbackSignal.Stop, t') →
      Cain.runCallbacks (cb :: rest) d t = (t', true))
    ∧ (∀ (cbs : List (Cain.CallbackData → τ → Cain.CallbackSignal × τ))
         (fuel : ℕ) (s : σ) (st : Cain) (t : τ) (params : List ℝ),
      (Cain.runCallbacks cbs (Cain.stepData w s st params) t).2 = true →
      Cain.optimise_from w cbs (fuel + 1) s st t params =
        (Cain.step w s st params).2.2.2) := by
  constructor
  · intro cb rest d t t' h
    simp [Cain.runCallbacks, h]
  · intro cbs fuel s st t params h
    simp [Cain.optimise_from, h]

/-- C1 witness: the amended stop semantics at a concrete stopping callback
(counter ends at 1, loop signalled), and at one iteration of
`optimise_from` over the trivial collaborator model. -/
theorem c1_stop_semantics_witness :
    (Cain.runCallbacks [cbStop] dataC1 0 = (1, true))
    ∧ (Cain.optimise_from trivialWorld [cbStop] 1 () (Cain.new.finish 1) 0 [0] =
        (Cain.step trivialWorld () (Cain.new.finish 1) [0]).2.2.2) :=
  ⟨(@c1_stop_semantics Unit ℕ trivialWorld).1 cbStop [] dataC1 0 1 rfl,
   (@c1_stop_semantics Unit ℕ trivialWorld).2 [cbStop] 0 () (Cain.new.finish 1) 0 [0] rfl⟩

/-- Zipping a list with itself pairs each element with itself. -/
theorem zip_self {α : Type} (l : List α) : l.zip l = l.map (fun x => (x, x)) := by
  induction l with
  | nil => rfl
  | cons a t ih => simp [ih]

/-- When a sub-batch gradient equals the mean and `n ≥ 2`, its
hold-one-out mean equals the gradient itself, so the fold term is 0. -/
theorem holdOneOutTerm_self (n : ℝ) (hn : 2 ≤ n) (mean : List ℝ) :
    Cain.holdOneOutTerm n mean mean = 0 := by
  have hn0 : n ≠ 0 := by linarith
  have hn1 : n - 1 ≠ 0 := by intro h; nlinarith [h]
  have hdiff : ∀ x : ℝ, x - (x - x / n) * n / (n - 1) = 0 := by
    intro x
    field_simp
    ring
  simp only [Cain.holdOneOutTerm, zip_self, List.map_map]
  have hzero : (mean.map
      ((fun p : ℝ × ℝ =>
        (p.2 - (p.1 - p.2 / n) * n / (n - 1)) *
          (p.2 - (p.1 - p.2 / n) * n / (n - 1))) ∘ fun x => (x, x))).sum = 0 := by
    refine List.sum_eq_zero ?_
    intro y hy
    obtain ⟨x, _, rfl⟩ := List.mem_map.1 hy
    simp only [Function.comp]
    rw [hdiff x]
    ring
  rw [hzero, zero_div]

/-- When every sub-batch gradient equals the mean and `n ≥ 2`, the
relative variance fold is 0. -/
theorem rel_var_self (cfg : CainConfig) (mean : List ℝ)
    (results : List (ℝ × List ℝ)) (hn : 2 ≤ cfg.num_subbatches)
    (hall : ∀ p ∈ results, p.2 = mean) : Cain.rel_var cfg mean results = 0 := by
  have aux : ∀ (l : List (ℝ × List ℝ)), (∀ p ∈ l, p.2 = mean) → ∀ acc : ℝ,
      l.foldl (fun sum r => sum + Cain.holdOneOutTerm cfg.num_subbatches mean r.2)
        acc = acc := by
    intro l
    induction l with
    | nil => intro _ acc; rfl
    | cons r t ih =>
      intro h acc
      simp only [List.foldl_cons]
      rw [h r (by simp), holdOneOutTerm_self _ hn mean, add_zero]
      exact ih (fun p hp => h p (by simp [hp])) acc
  exact aux results hall 0

/-- C3 counterexample: at `num_subbatches = 2`, mean `[1]`, and both
sub-batch gradients equal to the mean (zero noise), `update_batch_size`
returns 0.125 — the lower clamp bound (cain.rs line 252 shadows the raw
value before line 259 returns it) — not the unclamped 0 the claim
states. -/
theorem c3_zero_noise_returns_clamp_counterexample :
    ((((Cain.new.num_subbatches 2).finish 1)).update_batch_size [1]
        [(0, [1]), (0, [1])]).2 = 0.125
    ∧ (0.125 : ℝ) ≠ 0 := by
  have hn : (2 : ℝ) ≤ ((Cain.new.num_subbatches 2).finish 1).config.num_subbatches := by
    norm_num [Cain.new, CainBuilder.num_subbatches, CainBuilder.finish]
  have hv := rel_var_self ((Cain.new.num_subbatches 2).finish 1).config [1]
    [(0, [1]), (0, [1])] hn
    (by
      intro p hp
      simp only [List.mem_cons, List.not_mem_nil, or_false] at hp
      rcases hp with rfl | rfl <;> rfl)
  constructor
  · simp only [Cain.update_batch_size, Cain.rel_err_raw, hv]
    rw [zero_div, Real.sqrt_zero, zero_div]
    norm_num [max_def, min_def]
  · norm_num

/-- C3 (amended): the rel_err value returned by `update_batch_size` is the
CLAMPED relative error `min (max (sqrt (rel_var/n) / target_err) 0.125) 1000`;
in particular, when every sub-batch gradient equals the mean (zero noise,
with `num_subbatches ≥ 2`), the returned value is 0.125, the lower clamp
bound. -/
theorem c3_update_batch_size_returns_clamped (st : Cain) (mean : List ℝ)
    (results : List (ℝ × List ℝ)) (hn : 2 ≤ st.config.num_subbatches)
    (hall : ∀ p ∈ results, p.2 = mean) :
    (st.update_batch_size mean results).2 =
      min (max (Cain.rel_err_raw st.config mean results) 0.125) 1000
    ∧ (st.update_batch_size mean results).2 = 0.125 := by
  refine ⟨rfl, ?_⟩
  have hv := rel_var_self st.config mean results hn hall
  show min (max (Cain.rel_err_raw st.config mean results) 0.125) 1000 = 0.125
  rw [Cain.rel_err_raw, hv, zero_div, Real.sqrt_zero, zero_div]
  norm_num [max_def, min_def]

/-- C3 witness: the amended theorem at `num_subbatches = 2`, mean `[1]`,
both sub-batch gradients equal to the mean. -/
theorem c3_update_batch_size_returns_clamped_witness :
    ((((Cain.new.num_subbatches 2).finish 1)).update_batch_size [1]
        [(0, [1]), (0, [1])]).2 =
      min (max (Cain.rel_err_raw ((Cain.new.num_subbatches 2).finish 1).config [1]
        [(0, [1]), (0, [1])]) 0.125) 1000
    ∧ ((((Cain.new.num_subbatches 2).finish 1)).update_batch_size [1]
        [(0, [1]), (0, [1])]).2 = 0.125 :=
  c3_update_batch_size_returns_clamped ((Cain.new.num_subbatches 2).finish 1) [1]
    [(0, [1]), (0, [1])]
    (by norm_num [Cain.new, CainBuilder.num_subbatches, CainBuilder.finish])
    (by
      intro p hp
      simp only [List.mem_cons, List.not_mem_nil, or_false] at hp
      rcases hp with rfl | rfl <;> rfl)
